import Mathlib

/-!
Verification development for the reachinbox email aggregator's ingestion
pipeline.  The Lean definitions below are shallow embeddings of the
JavaScript services in `src/`: pure computations become Lean functions,
environment variables and external transports become explicit parameters
(`Option String` for possibly-unset configuration, `Except String α` for
awaited calls that may reject), and the `try`/`catch` structure of each
method is made explicit so that "never throws" is a provable statement
rather than an artefact of the modelling.
-/

namespace Reachinbox

/-- An attachment descriptor as carried through the pipeline (filename,
content type, byte size; content itself is not retained). -/
structure Attachment where
  filename : String
  contentType : String
  size : Nat
  deriving Repr, DecidableEq

/-- The canonical email record built by `processEmailMessage`
(`imapSyncService.js` lines 172-191).  `category` is absent until the
classification step assigns it. -/
structure EmailData where
  id : String
  uid : Nat
  email : String
  fromText : String
  toText : String
  subject : String
  date : Int
  text : String
  html : String
  attachments : List Attachment
  folder : String
  flags : List String
  size : Nat
  messageId : String
  inReplyTo : String
  references : String
  createdAt : Int
  updatedAt : Int
  category : Option String
  deriving Repr, DecidableEq

/-- The closed category list of `AICategorizationService`
(`aiCategorizationService.js` lines 23-29). -/
def categories : List String :=
  ["Interested", "Meeting Booked", "Not Interested", "Spam", "Out of Office"]

/-- The default category used whenever classification cannot produce a
validated category. -/
def defaultCategory : String := "Not Interested"

/-- The ECMAScript `String.prototype.trim` builtin used by
`response.choices[0].message.content.trim()`: strip leading and trailing
whitespace.  (Defined by structural recursion on the character list so
that proofs can evaluate it; the builtin is external to the repository.) -/
def jsTrim (s : String) : String :=
  String.mk ((s.toList.dropWhile Char.isWhitespace).reverse.dropWhile
    Char.isWhitespace).reverse

/-- `categorizeEmail` (`aiCategorizationService.js` lines 36-76).

* `apiKey` models `process.env.OPENAI_API_KEY`; the JavaScript guard
  `!process.env.OPENAI_API_KEY` is true when the variable is unset or the
  empty string, hence the `getD ""` test.
* `provider` models the awaited `openai.chat.completions.create` call:
  `Except.ok c` is the string `response.choices[0].message.content`, and
  `Except.error` is any rejection (network failure, API error, missing
  `choices`), all of which land in the method's `catch` block.

The returned content is trimmed (`content.trim()`) and validated against
`categories`; every failure path returns `defaultCategory`. -/
def categorizeEmail (apiKey : Option String)
    (provider : EmailData → Except String String) (emailData : EmailData) : String :=
  if apiKey.getD "" = "" then
    defaultCategory
  else
    match provider emailData with
    | Except.error _ => defaultCategory
    | Except.ok content =>
      let category := jsTrim content
      if categories.contains category then category else defaultCategory

/-- One entry of the result list of `batchCategorizeEmails`. -/
structure CategorizedEntry where
  id : String
  category : String
  deriving Repr, DecidableEq

/-- The observable actions of one run of `batchCategorizeEmails`:
a classifier call for an email id, or the fixed rate-limit delay
(`setTimeout(resolve, 100)`). -/
inductive BatchAction where
  | classifyCall (id : String)
  | delayMs (n : Nat)
  deriving Repr, DecidableEq

/-- The loop body of `batchCategorizeEmails`
(`aiCategorizationService.js` lines 169-191): for each email in order,
await `categorizeEmail` (which never rejects), push `{id, category}`,
then await a 100 ms delay.  Returns the accumulated result list together
with the trace of actions performed. -/
def batchCategorizeEmailsRun (apiKey : Option String)
    (provider : EmailData → Except String String) :
    List EmailData → List CategorizedEntry × List BatchAction
  | [] => ([], [])
  | e :: rest =>
    let entry : CategorizedEntry := ⟨e.id, categorizeEmail apiKey provider e⟩
    let tail := batchCategorizeEmailsRun apiKey provider rest
    (entry :: tail.1, BatchAction.classifyCall e.id :: BatchAction.delayMs 100 :: tail.2)

/-- The value returned by `batchCategorizeEmails`: the result list of the
loop above.  The method's outer `try`/`catch` rethrows, but the body
contains no rejecting await (`categorizeEmail` catches internally), so the
function is total. -/
def batchCategorizeEmails (apiKey : Option String)
    (provider : EmailData → Except String String) (emails : List EmailData) :
    List CategorizedEntry :=
  (batchCategorizeEmailsRun apiKey provider emails).1

/-- A concrete email record used to instantiate witnesses. -/
def sampleEmail : EmailData :=
  { id := "a@x.com_7", uid := 7, email := "a@x.com", fromText := "lead@corp.com"
    toText := "a@x.com", subject := "Meeting Request", date := 1700000000
    text := "let us schedule a meeting", html := "", attachments := []
    folder := "INBOX", flags := [], size := 2048, messageId := "<m1>"
    inReplyTo := "", references := "", createdAt := 1700000001
    updatedAt := 1700000001, category := none }

/-- A second concrete email record (distinct id), for batch scenarios. -/
def sampleEmail2 : EmailData :=
  { sampleEmail with id := "a@x.com_8", uid := 8, subject := "Newsletter" }

/-! ### Lemmas about the classification gateway -/

theorem mem_of_contains_eq_true {l : List String} {a : String}
    (h : l.contains a = true) : a ∈ l := by
  simpa using h

theorem categorizeEmail_mem (apiKey : Option String)
    (provider : EmailData → Except String String) (e : EmailData) :
    categorizeEmail apiKey provider e ∈ categories := by
  unfold categorizeEmail
  split
  · decide
  · split
    · decide
    · simp only
      split
      · next hc => exact mem_of_contains_eq_true hc
      · decide

theorem categorizeEmail_of_error (apiKey : Option String)
    (provider : EmailData → Except String String) (e : EmailData) (msg : String)
    (h : provider e = Except.error msg) :
    categorizeEmail apiKey provider e = defaultCategory := by
  unfold categorizeEmail
  by_cases hk : apiKey.getD "" = "" <;> simp [hk, h]

theorem batchRun_fst_length (apiKey : Option String)
    (provider : EmailData → Except String String) :
    ∀ es : List EmailData,
      ((batchCategorizeEmailsRun apiKey provider es).1).length = es.length := by
  intro es
  induction es with
  | nil => rfl
  | cons e rest ih => simp [batchCategorizeEmailsRun, ih]

theorem batchRun_fst_get (apiKey : Option String)
    (provider : EmailData → Except String String) :
    ∀ (es : List EmailData) (i : Nat) (e : EmailData), es[i]? = some e →
      ((batchCategorizeEmailsRun apiKey provider es).1)[i]? =
        some ⟨e.id, categorizeEmail apiKey provider e⟩ := by
  intro es
  induction es with
  | nil => intro i e h; simp at h
  | cons a rest ih =>
    intro i e h
    cases i with
    | zero => simp at h; simp [batchCategorizeEmailsRun, h]
    | succ j =>
      simp only [List.getElem?_cons_succ] at h
      simpa [batchCategorizeEmailsRun] using ih j e h

theorem batchRun_snd_get (apiKey : Option String)
    (provider : EmailData → Except String String) :
    ∀ (es : List EmailData) (i : Nat) (e : EmailData), es[i]? = some e →
      ((batchCategorizeEmailsRun apiKey provider es).2)[2 * i]? =
        some (BatchAction.classifyCall e.id) ∧
      ((batchCategorizeEmailsRun apiKey provider es).2)[2 * i + 1]? =
        some (BatchAction.delayMs 100) := by
  intro es
  induction es with
  | nil => intro i e h; simp at h
  | cons a rest ih =>
    intro i e h
    cases i with
    | zero => simp at h; simp [batchCategorizeEmailsRun, h]
    | succ j =>
      simp only [List.getElem?_cons_succ] at h
      have hj := ih j e h
      constructor
      · have h2 : 2 * (j + 1) = (2 * j + 1) + 1 := by ring
        rw [h2]
        simpa [batchCategorizeEmailsRun] using hj.1
      · have h2 : 2 * (j + 1) + 1 = ((2 * j + 1) + 1) + 1 := by ring
        rw [h2]
        simpa [batchCategorizeEmailsRun] using hj.2

/-! ### Claim theorems: classification -/

/-- Claim C1 counterexample: the claim says any provider response that is
not exactly one of the five category strings is replaced by the default
`Not Interested`; but the code trims the response before validating it,
so the response `"Interested "` — not one of the five strings — is
accepted and returned as `"Interested"`, not as the default. -/
theorem categorizeEmail_exact_counterexample :
    categories.contains "Interested " = false ∧
    categorizeEmail (some "sk-key") (fun _ => Except.ok "Interested ") sampleEmail
      = "Interested" ∧
    categorizeEmail (some "sk-key") (fun _ => Except.ok "Interested ") sampleEmail
      ≠ defaultCategory := by
  refine ⟨by decide, by decide, by decide⟩

/-- Claim C1 (amended): `categorizeEmail` always returns one of the five
categories; it returns the default `Not Interested` whenever the API
credential is absent or empty, whenever the provider call errors, and
whenever the provider's response, after trimming surrounding whitespace,
is not one of the five category strings. -/
theorem categorizeEmail_closed (apiKey : Option String)
    (provider : EmailData → Except String String) (e : EmailData) :
    categorizeEmail apiKey provider e ∈ categories ∧
    (apiKey.getD "" = "" → categorizeEmail apiKey provider e = defaultCategory) ∧
    (∀ msg, provider e = Except.error msg →
      categorizeEmail apiKey provider e = defaultCategory) ∧
    (∀ c, provider e = Except.ok c → categories.contains (jsTrim c) = false →
      categorizeEmail apiKey provider e = defaultCategory) := by
  refine ⟨categorizeEmail_mem apiKey provider e, ?_, ?_, ?_⟩
  · intro hk; simp [categorizeEmail, hk]
  · intro msg hmsg; exact categorizeEmail_of_error apiKey provider e msg hmsg
  · intro c hc hcontains
    unfold categorizeEmail
    by_cases hk : apiKey.getD "" = ""
    · simp [hk]
    · simp only [hk, ite_false, hc, if_false]
      have hnot : jsTrim c ∉ categories := by simpa using hcontains
      simp [hnot]

/-- Witness for `categorizeEmail_closed` at a concrete input: with no API
key configured, the sample email is categorized as `Not Interested`. -/
theorem categorizeEmail_closed_witness :
    categorizeEmail none (fun _ => Except.ok "Spam") sampleEmail = defaultCategory :=
  (categorizeEmail_closed none (fun _ => Except.ok "Spam") sampleEmail).2.1 rfl

/-- Claim C7 (confirmed): `batchCategorizeEmails` returns a list of
exactly the input length, in input order; each entry carries the id of
the corresponding input email and the category `categorizeEmail`
computed for it; an entry whose provider call failed carries the default
category while the others carry the classifier's category, so one
failure never aborts the batch; and the action trace is sequential with
a 100 ms delay after each classifier call. -/
theorem batchCategorizeEmails_spec (apiKey : Option String)
    (provider : EmailData → Except String String) (emails : List EmailData) :
    (batchCategorizeEmails apiKey provider emails).length = emails.length ∧
    (∀ (i : Nat) (e : EmailData), emails[i]? = some e →
      (batchCategorizeEmails apiKey provider emails)[i]? =
        some ⟨e.id, categorizeEmail apiKey provider e⟩) ∧
    (∀ (i : Nat) (e : EmailData) (msg : String), emails[i]? = some e →
      provider e = Except.error msg →
      (batchCategorizeEmails apiKey provider emails)[i]? =
        some ⟨e.id, defaultCategory⟩) ∧
    (∀ (i : Nat) (e : EmailData), emails[i]? = some e →
      ((batchCategorizeEmailsRun apiKey provider emails).2)[2 * i]? =
        some (BatchAction.classifyCall e.id) ∧
      ((batchCategorizeEmailsRun apiKey provider emails).2)[2 * i + 1]? =
        some (BatchAction.delayMs 100)) := by
  refine ⟨batchRun_fst_length apiKey provider emails, ?_, ?_, ?_⟩
  · intro i e h
    exact batchRun_fst_get apiKey provider emails i e h
  · intro i e msg h hp
    have := batchRun_fst_get apiKey provider emails i e h
    rwa [categorizeEmail_of_error apiKey provider e msg hp] at this
  · intro i e h
    exact batchRun_snd_get apiKey provider emails i e h

/-- Witness for `batchCategorizeEmails_spec`: the spec's end-to-end batch
scenario — two emails, the provider errors on the second; the second
result entry carries the default category. -/
theorem batchCategorizeEmails_spec_witness :
    (batchCategorizeEmails (some "sk-key")
        (fun e => if e.uid = 7 then Except.ok "Interested" else Except.error "boom")
        [sampleEmail, sampleEmail2])[1]? =
      some ⟨sampleEmail2.id, defaultCategory⟩ :=
  (batchCategorizeEmails_spec (some "sk-key")
      (fun e => if e.uid = 7 then Except.ok "Interested" else Except.error "boom")
      [sampleEmail, sampleEmail2]).2.2.1 1 sampleEmail2 "boom" (by rfl) (by rfl)

/-! ### Search windows (`imapSyncService.js`)

Timestamps are minutes; `dayOf` is what the `DD-MMM-YYYY` date format
retains of a timestamp. -/

/-- Minutes per calendar day. -/
def minutesPerDay : Nat := 1440

/-- The calendar day of a timestamp: `moment(...).format('DD-MMM-YYYY')`
keeps only the date, dropping the time of day. -/
def dayOf (t : Nat) : Nat := t / minutesPerDay

/-- An IMAP `['SINCE', date]` search criterion; `sinceDay` is the
day-granular date the code formats into the criterion. -/
structure SearchCriteria where
  sinceDay : Nat
  deriving Repr, DecidableEq

/-- RFC 3501 `SINCE` semantics (the mail server's side of the search):
a message matches when its internal date, disregarding time of day, is
within or later than the criterion's date. -/
def SearchCriteria.matchesDate (c : SearchCriteria) (msgDate : Nat) : Bool :=
  decide (c.sinceDay ≤ dayOf msgDate)

/-- The criterion the initial backfill `syncEmails` issues (lines
112-113): `thirtyDaysAgo = moment().subtract(30, 'days').format('DD-MMM-YYYY')`,
`searchCriteria = ['SINCE', thirtyDaysAgo]`. -/
def syncEmailsSearchCriteria (now : Nat) : SearchCriteria :=
  ⟨dayOf (now - 30 * minutesPerDay)⟩

/-- The criterion each 60-second `checkForNewEmails` tick issues (lines
239-240): `lastCheck = moment().subtract(1, 'minute').format('DD-MMM-YYYY')`,
`searchCriteria = ['SINCE', lastCheck]`. -/
def checkForNewEmailsSearchCriteria (now : Nat) : SearchCriteria :=
  ⟨dayOf (now - 1)⟩

/-- Claim C2 counterexample: the issued criteria are day-granular, so
they do not select "exactly" the claimed trailing windows.  At
`now = 1440` (midnight after day 0) the tick's criterion matches a
message 720 minutes old — far older than the trailing 1 minute; at
`now = 43920` (noon of day 30) the backfill criterion matches a message
from minute 60 of day 0, which is older than 30 days. -/
theorem searchWindow_counterexample :
    ((checkForNewEmailsSearchCriteria 1440).matchesDate 720 = true ∧
      1440 - 720 > 1) ∧
    ((syncEmailsSearchCriteria 43920).matchesDate 60 = true ∧
      43920 - 60 > 30 * minutesPerDay) := by
  decide

/-- Claim C2 (amended): the backfill criterion is `SINCE` the calendar
day of (now − 30 days) and the tick criterion is `SINCE` the calendar
day of (now − 1 minute); matching is at day granularity, so each
criterion matches every message dated on or after that calendar day —
a superset of the claimed exact trailing window, which is contained in
what is matched. -/
theorem searchWindow_day_granularity (now msgDate : Nat) :
    ((syncEmailsSearchCriteria now).matchesDate msgDate = true ↔
      dayOf (now - 30 * minutesPerDay) ≤ dayOf msgDate) ∧
    ((checkForNewEmailsSearchCriteria now).matchesDate msgDate = true ↔
      dayOf (now - 1) ≤ dayOf msgDate) ∧
    (now - 30 * minutesPerDay ≤ msgDate →
      (syncEmailsSearchCriteria now).matchesDate msgDate = true) ∧
    (now - 1 ≤ msgDate →
      (checkForNewEmailsSearchCriteria now).matchesDate msgDate = true) := by
  refine ⟨by simp [SearchCriteria.matchesDate, syncEmailsSearchCriteria],
    by simp [SearchCriteria.matchesDate, checkForNewEmailsSearchCriteria], ?_, ?_⟩
  · intro h
    simp only [SearchCriteria.matchesDate, syncEmailsSearchCriteria, dayOf,
      decide_eq_true_eq]
    exact Nat.div_le_div_right h
  · intro h
    simp only [SearchCriteria.matchesDate, checkForNewEmailsSearchCriteria, dayOf,
      decide_eq_true_eq]
    exact Nat.div_le_div_right h

/-- Witness for `searchWindow_day_granularity`: a message 30 minutes old
is matched by the backfill criterion at `now` one hour into day 30. -/
theorem searchWindow_day_granularity_witness :
    (syncEmailsSearchCriteria 43260).matchesDate 43230 = true :=
  (searchWindow_day_granularity 43260 43230).2.2.1 (by decide)

/-! ### Sink request configurations -/

/-- An axios request configuration as built by the sink services: the
headers and the optional `timeout` field (milliseconds).  axios applies
no timeout at all when the field is absent. -/
structure AxiosRequestConfig where
  headers : List (String × String)
  timeoutMs : Option Nat
  deriving Repr, DecidableEq

/-- The request configuration of `SlackService.sendNotification`
(part_003 lines 29-33): a Content-Type header and no `timeout` field. -/
def sendNotificationRequestConfig : AxiosRequestConfig :=
  { headers := [("Content-Type", "application/json")], timeoutMs := none }

/-- The request configuration of `WebhookService.triggerWebhook`
(`webhookService.js` lines 29-35): 10-second timeout. -/
def triggerWebhookRequestConfig : AxiosRequestConfig :=
  { headers := [("Content-Type", "application/json"),
      ("User-Agent", "Reachinbox-Webhook/1.0")],
    timeoutMs := some 10000 }

/-- The request configuration of `WebhookService.triggerBatchWebhook`
(`webhookService.js` lines 127-133): 15-second timeout. -/
def triggerBatchWebhookRequestConfig : AxiosRequestConfig :=
  { headers := [("Content-Type", "application/json"),
      ("User-Agent", "Reachinbox-Webhook/1.0")],
    timeoutMs := some 15000 }

/-- Claim C6 counterexample: the chat-notification send's request
configuration has no timeout field at all — in particular not the
claimed 5-second timeout. -/
theorem sendNotification_timeout_counterexample :
    sendNotificationRequestConfig.timeoutMs = none ∧
    sendNotificationRequestConfig.timeoutMs ≠ some 5000 := by
  decide

/-- Claim C6 (amended): the single webhook call uses a 10-second timeout
and the batch webhook call a 15-second timeout; the chat-notification
send sets no timeout (axios default: unbounded). -/
theorem sink_timeouts :
    triggerWebhookRequestConfig.timeoutMs = some 10000 ∧
    triggerBatchWebhookRequestConfig.timeoutMs = some 15000 ∧
    sendNotificationRequestConfig.timeoutMs = none :=
  ⟨rfl, rfl, rfl⟩

/-! ### JavaScript member lookup: the `isRunning` shadowing -/

/-- A JavaScript value as far as member calls are concerned: a boolean,
a callable function, or some other object. -/
inductive JsValue where
  | bool (b : Bool)
  | fn (name : String)
  | obj (name : String)
  deriving Repr, DecidableEq

/-- A JavaScript object: its own properties and its prototype's. -/
structure JsObject where
  ownProps : List (String × JsValue)
  protoProps : List (String × JsValue)

/-- JavaScript property lookup: own properties shadow the prototype. -/
def JsObject.getProp (o : JsObject) (k : String) : Option JsValue :=
  match o.ownProps.lookup k with
  | some v => some v
  | none => o.protoProps.lookup k

/-- The outcome of a member call `o.k()`. -/
inductive CallOutcome where
  | typeError
  | invoked (fnName : String)
  deriving Repr, DecidableEq

/-- `o.k()`: JavaScript raises a TypeError unless the property lookup
yields a callable. -/
def JsObject.callMember (o : JsObject) (k : String) : CallOutcome :=
  match o.getProp k with
  | some (JsValue.fn f) => CallOutcome.invoked f
  | _ => CallOutcome.typeError

/-- The prototype of `ImapSyncService`: its class methods
(`imapSyncService.js` lines 28-300), including the `isRunning()` method
of lines 290-292. -/
def imapSyncServiceProto : List (String × JsValue) :=
  [("start", JsValue.fn "start"),
   ("initializeConnection", JsValue.fn "initializeConnection"),
   ("syncEmails", JsValue.fn "syncEmails"),
   ("processEmailMessage", JsValue.fn "processEmailMessage"),
   ("setupIdleMode", JsValue.fn "setupIdleMode"),
   ("stop", JsValue.fn "stop"),
   ("isRunning", JsValue.fn "isRunning"),
   ("getConnectionStatus", JsValue.fn "getConnectionStatus")]

/-- An `ImapSyncService` instance after its constructor ran (lines
7-26).  `running` is the current value of the `isRunning` own property
assigned at line 14: `false` from the constructor, `true` after a
successful `start()`, `false` again after `stop()`. -/
def imapSyncServiceInstance (running : Bool) : JsObject :=
  { ownProps :=
      [("elasticsearchService", JsValue.obj "elasticsearchService"),
       ("aiCategorizationService", JsValue.obj "aiCategorizationService"),
       ("slackService", JsValue.obj "slackService"),
       ("webhookService", JsValue.obj "webhookService"),
       ("io", JsValue.obj "io"),
       ("connections", JsValue.obj "connections"),
       ("isRunning", JsValue.bool running),
       ("logger", JsValue.obj "logger")],
    protoProps := imapSyncServiceProto }

/-- The `services.imap` field computed by the `/health` handler
(part_002 lines 87-96): `this.imapSyncService.isRunning()`. -/
def healthImapField (svc : JsObject) : CallOutcome :=
  JsObject.callMember svc "isRunning"

/-- Claim C10 (confirmed): on every constructed `ImapSyncService`
instance — whatever the current boolean value of the `isRunning` own
property, i.e. before or after `start()` — the own property assigned in
the constructor shadows the prototype method `isRunning()`, so the
health endpoint's invocation `imapSyncService.isRunning()` is a
TypeError, never the running flag. -/
theorem health_isRunning_typeError (running : Bool) :
    (imapSyncServiceInstance running).getProp "isRunning"
      = some (JsValue.bool running) ∧
    healthImapField (imapSyncServiceInstance running) = CallOutcome.typeError := by
  cases running <;> exact ⟨rfl, rfl⟩

/-! ### Notification sinks

`webhookUrl` parameters model the `process.env` configuration read in the
sink constructors (the JavaScript guard `!this.webhookUrl` is true for an
unset or empty variable); `transport` models the awaited `axios.post`:
`Except.ok status` a resolved response with its HTTP status,
`Except.error` a rejection (network error, timeout). -/

/-- Body of `SlackService.sendNotification` before its catch block
(part_003 lines 20-42): guard on configuration, post, then
`response.status === 200`.  A transport rejection surfaces as
`Except.error`, to be handled by the catch. -/
def sendNotificationTry (webhookUrl : Option String)
    (transport : Except String Nat) : Except String Bool :=
  if webhookUrl.getD "" = "" then Except.ok false
  else
    match transport with
    | Except.error e => Except.error e
    | Except.ok status => Except.ok (status == 200)

/-- `SlackService.sendNotification` (part_003 lines 20-47): the body
above wrapped in the catch block, which logs and returns `false`. -/
def sendNotification (webhookUrl : Option String)
    (transport : Except String Nat) : Except String Bool :=
  match sendNotificationTry webhookUrl transport with
  | Except.error _ => Except.ok false
  | r => r

/-- Body of `WebhookService.triggerWebhook` before its catch block
(`webhookService.js` lines 20-43): guard on configuration, post, then
`response.status >= 200 && response.status < 300`. -/
def triggerWebhookTry (webhookUrl : Option String)
    (transport : Except String Nat) : Except String Bool :=
  if webhookUrl.getD "" = "" then Except.ok false
  else
    match transport with
    | Except.error e => Except.error e
    | Except.ok status => Except.ok (decide (200 ≤ status ∧ status < 300))

/-- `WebhookService.triggerWebhook` (`webhookService.js` lines 20-49):
the body above wrapped in the catch block, which logs and returns
`false`. -/
def triggerWebhook (webhookUrl : Option String)
    (transport : Except String Nat) : Except String Bool :=
  match triggerWebhookTry webhookUrl transport with
  | Except.error _ => Except.ok false
  | r => r

theorem sendNotification_ok (webhookUrl : Option String)
    (transport : Except String Nat) :
    ∃ b, sendNotification webhookUrl transport = Except.ok b := by
  unfold sendNotification sendNotificationTry
  by_cases h : webhookUrl.getD "" = ""
  · exact ⟨false, by simp [h]⟩
  · cases transport with
    | error e => exact ⟨false, by simp [h]⟩
    | ok status => exact ⟨status == 200, by simp [h]⟩

theorem triggerWebhook_ok (webhookUrl : Option String)
    (transport : Except String Nat) :
    ∃ b, triggerWebhook webhookUrl transport = Except.ok b := by
  unfold triggerWebhook triggerWebhookTry
  by_cases h : webhookUrl.getD "" = ""
  · exact ⟨false, by simp [h]⟩
  · cases transport with
    | error e => exact ⟨false, by simp [h]⟩
    | ok status => exact ⟨decide (200 ≤ status ∧ status < 300), by simp [h]⟩

/-! ### The per-message pipeline (`processEmailMessage`) -/

/-- The result of `mailparser.simpleParser` on one raw payload.  The
library resolves for every input buffer and leaves absent whatever it
could not extract; a payload it cannot parse at all yields a record with
every field absent (`ParsedMail.empty`). -/
structure ParsedMail where
  fromText : Option String
  toText : Option String
  subject : Option String
  date : Option Int
  text : Option String
  html : Option String
  attachments : Option (List Attachment)
  messageId : Option String
  inReplyTo : Option String
  references : Option String
  deriving Repr, DecidableEq

/-- The parse of an unparseable payload: nothing extracted. -/
def ParsedMail.empty : ParsedMail :=
  ⟨none, none, none, none, none, none, none, none, none, none⟩

/-- The server-supplied attributes of a fetched message (`msg.on('attributes')`). -/
structure Attrs where
  uid : Nat
  flags : Option (List String)
  size : Option Nat
  deriving Repr, DecidableEq

/-- The `emailData` record built at `imapSyncService.js` lines 172-191:
every textual field falls back to `''`, the date to `new Date()` (`now`),
attachments to `[]`, flags to `[]`, size to `0`. -/
def buildEmailData (email : String) (attrs : Attrs) (parsed : ParsedMail)
    (now : Int) : EmailData :=
  { id := email ++ "_" ++ toString attrs.uid
    uid := attrs.uid
    email := email
    fromText := parsed.fromText.getD ""
    toText := parsed.toText.getD ""
    subject := parsed.subject.getD ""
    date := parsed.date.getD now
    text := parsed.text.getD ""
    html := parsed.html.getD ""
    attachments := parsed.attachments.getD []
    folder := "INBOX"
    flags := attrs.flags.getD []
    size := attrs.size.getD 0
    messageId := parsed.messageId.getD ""
    inReplyTo := parsed.inReplyTo.getD ""
    references := parsed.references.getD ""
    createdAt := now
    updatedAt := now
    category := none }

/-- The live-update topic of `io.to('email-updates')`. -/
def liveUpdateTopic : String := "email-updates"

/-- One observable side effect of the per-message pipeline: the store
upsert call, the category patch call, a sink call with its boolean
result, or the live-update publish. -/
inductive Effect where
  | indexEmail (e : EmailData)
  | updateCategory (id : String) (category : String)
  | slackNotify (id : String) (ok : Bool)
  | webhookTrigger (id : String) (ok : Bool)
  | emitNewEmail (topic : String) (id : String) (fromText : String)
      (subject : String) (category : String) (date : Int)
  deriving Repr, DecidableEq

/-- The outcome of one `processEmailMessage` run: the effects performed,
whether the completion callback fired, and any error escaping the
handler (the `catch` at lines 221-224 makes this always `none`). -/
structure ProcessResult where
  effects : List Effect
  callbackCalled : Bool
  uncaught : Option String
  deriving Repr, DecidableEq

/-- `processEmailMessage`'s `end` handler (`imapSyncService.js` lines
154-226).  `parseResult` is the awaited `simpleParser(buffer)`
(`Except.error` a library rejection, caught like every other error);
`indexEmail` and `updateEmailCategory` are the store calls of
`elasticsearchService` (which rethrow their errors); the sink calls
never reject (see `sendNotification_ok`, `triggerWebhook_ok`), so their
`Except.error` branches here are dead but kept for faithfulness to the
surrounding `try`.  Every branch calls the completion callback and lets
no error escape. -/
def processEmailMessage
    (indexEmail : EmailData → Except String Unit)
    (updateEmailCategory : String → String → Except String Unit)
    (apiKey : Option String) (provider : EmailData → Except String String)
    (slackUrl : Option String) (slackTransport : EmailData → Except String Nat)
    (webhookUrl : Option String) (webhookTransport : EmailData → Except String Nat)
    (email : String) (attrs : Attrs) (parseResult : Except String ParsedMail)
    (now : Int) : ProcessResult :=
  match parseResult with
  | Except.error _ => ⟨[], true, none⟩
  | Except.ok parsed =>
    let d := buildEmailData email attrs parsed now
    match indexEmail d with
    | Except.error _ => ⟨[Effect.indexEmail d], true, none⟩
    | Except.ok _ =>
      let category := categorizeEmail apiKey provider d
      match updateEmailCategory d.id category with
      | Except.error _ =>
        ⟨[Effect.indexEmail d, Effect.updateCategory d.id category], true, none⟩
      | Except.ok _ =>
        if category = "Interested" then
          match sendNotification slackUrl (slackTransport d) with
          | Except.error _ =>
            ⟨[Effect.indexEmail d, Effect.updateCategory d.id category], true, none⟩
          | Except.ok sb =>
            match triggerWebhook webhookUrl (webhookTransport d) with
            | Except.error _ =>
              ⟨[Effect.indexEmail d, Effect.updateCategory d.id category,
                Effect.slackNotify d.id sb], true, none⟩
            | Except.ok wb =>
              ⟨[Effect.indexEmail d, Effect.updateCategory d.id category,
                Effect.slackNotify d.id sb, Effect.webhookTrigger d.id wb,
                Effect.emitNewEmail liveUpdateTopic d.id d.fromText d.subject
                  category d.date], true, none⟩
        else
          ⟨[Effect.indexEmail d, Effect.updateCategory d.id category,
            Effect.emitNewEmail liveUpdateTopic d.id d.fromText d.subject
              category d.date], true, none⟩

/-- A fetch batch as `syncEmails`/`checkForNewEmails` process it: every
fetched message goes through `processEmailMessage` with its own
attributes and parse outcome. -/
def processFetchedMessages
    (indexEmail : EmailData → Except String Unit)
    (updateEmailCategory : String → String → Except String Unit)
    (apiKey : Option String) (provider : EmailData → Except String String)
    (slackUrl : Option String) (slackTransport : EmailData → Except String Nat)
    (webhookUrl : Option String) (webhookTransport : EmailData → Except String Nat)
    (email : String) (msgs : List (Attrs × Except String ParsedMail))
    (now : Int) : List ProcessResult :=
  msgs.map (fun m =>
    processEmailMessage indexEmail updateEmailCategory apiKey provider
      slackUrl slackTransport webhookUrl webhookTransport email m.1 m.2 now)

/-- Unwrap a resolved sink result (the pipeline awaits the sink calls,
which never reject; see `sendNotification_ok`, `triggerWebhook_ok`). -/
def exceptBool (r : Except String Bool) : Bool :=
  match r with
  | Except.ok b => b
  | Except.error _ => false

/-! ### Concrete oracles for witnesses -/

/-- A store whose calls always succeed. -/
def storeOk : EmailData → Except String Unit := fun _ => Except.ok ()

/-- A category-patch call that always succeeds. -/
def updateOk : String → String → Except String Unit := fun _ _ => Except.ok ()

/-- A transport that always rejects. -/
def transportDown : EmailData → Except String Nat := fun _ => Except.error "ECONNREFUSED"

/-- A classifier provider that always rejects. -/
def providerDown : EmailData → Except String String := fun _ => Except.error "ENETUNREACH"

/-- Concrete server attributes for witnesses. -/
def sampleAttrs : Attrs := { uid := 7, flags := some ["\\Seen"], size := some 2048 }

/-! ### Lemmas about the per-message pipeline -/

theorem processEmailMessage_total
    (idx : EmailData → Except String Unit)
    (upd : String → String → Except String Unit)
    (key : Option String) (prov : EmailData → Except String String)
    (su : Option String) (st : EmailData → Except String Nat)
    (wu : Option String) (wt : EmailData → Except String Nat)
    (email : String) (attrs : Attrs) (parseResult : Except String ParsedMail)
    (now : Int) :
    (processEmailMessage idx upd key prov su st wu wt email attrs
        parseResult now).uncaught = none ∧
    (processEmailMessage idx upd key prov su st wu wt email attrs
        parseResult now).callbackCalled = true := by
  unfold processEmailMessage
  cases parseResult with
  | error e => exact ⟨rfl, rfl⟩
  | ok parsed =>
    dsimp only
    (repeat' split) <;> exact ⟨rfl, rfl⟩

theorem processEmailMessage_index_called
    (idx : EmailData → Except String Unit)
    (upd : String → String → Except String Unit)
    (key : Option String) (prov : EmailData → Except String String)
    (su : Option String) (st : EmailData → Except String Nat)
    (wu : Option String) (wt : EmailData → Except String Nat)
    (email : String) (attrs : Attrs) (parsed : ParsedMail) (now : Int) :
    Effect.indexEmail (buildEmailData email attrs parsed now) ∈
      (processEmailMessage idx upd key prov su st wu wt email attrs
        (Except.ok parsed) now).effects := by
  unfold processEmailMessage
  dsimp only
  (repeat' split) <;> simp

theorem processEmailMessage_interested_eq
    (idx : EmailData → Except String Unit)
    (upd : String → String → Except String Unit)
    (key : Option String) (prov : EmailData → Except String String)
    (su : Option String) (st : EmailData → Except String Nat)
    (wu : Option String) (wt : EmailData → Except String Nat)
    (email : String) (attrs : Attrs) (parsed : ParsedMail) (now : Int)
    (hidx : idx (buildEmailData email attrs parsed now) = Except.ok ())
    (hupd : upd (buildEmailData email attrs parsed now).id
        (categorizeEmail key prov (buildEmailData email attrs parsed now))
      = Except.ok ())
    (hcat : categorizeEmail key prov (buildEmailData email attrs parsed now)
      = "Interested") :
    processEmailMessage idx upd key prov su st wu wt email attrs
        (Except.ok parsed) now =
      ⟨[Effect.indexEmail (buildEmailData email attrs parsed now),
        Effect.updateCategory (buildEmailData email attrs parsed now).id
          (categorizeEmail key prov (buildEmailData email attrs parsed now)),
        Effect.slackNotify (buildEmailData email attrs parsed now).id
          (exceptBool (sendNotification su
            (st (buildEmailData email attrs parsed now)))),
        Effect.webhookTrigger (buildEmailData email attrs parsed now).id
          (exceptBool (triggerWebhook wu
            (wt (buildEmailData email attrs parsed now)))),
        Effect.emitNewEmail liveUpdateTopic
          (buildEmailData email attrs parsed now).id
          (buildEmailData email attrs parsed now).fromText
          (buildEmailData email attrs parsed now).subject
          (categorizeEmail key prov (buildEmailData email attrs parsed now))
          (buildEmailData email attrs parsed now).date], true, none⟩ := by
  obtain ⟨sb, hsb⟩ :=
    sendNotification_ok su (st (buildEmailData email attrs parsed now))
  obtain ⟨wb, hwb⟩ :=
    triggerWebhook_ok wu (wt (buildEmailData email attrs parsed now))
  rw [hcat] at hupd
  unfold processEmailMessage
  simp [hidx, hupd, hcat, hsb, hwb, exceptBool]

theorem processEmailMessage_not_interested_eq
    (idx : EmailData → Except String Unit)
    (upd : String → String → Except String Unit)
    (key : Option String) (prov : EmailData → Except String String)
    (su : Option String) (st : EmailData → Except String Nat)
    (wu : Option String) (wt : EmailData → Except String Nat)
    (email : String) (attrs : Attrs) (parsed : ParsedMail) (now : Int)
    (hidx : idx (buildEmailData email attrs parsed now) = Except.ok ())
    (hupd : upd (buildEmailData email attrs parsed now).id
        (categorizeEmail key prov (buildEmailData email attrs parsed now))
      = Except.ok ())
    (hcat : categorizeEmail key prov (buildEmailData email attrs parsed now)
      ≠ "Interested") :
    processEmailMessage idx upd key prov su st wu wt email attrs
        (Except.ok parsed) now =
      ⟨[Effect.indexEmail (buildEmailData email attrs parsed now),
        Effect.updateCategory (buildEmailData email attrs parsed now).id
          (categorizeEmail key prov (buildEmailData email attrs parsed now)),
        Effect.emitNewEmail liveUpdateTopic
          (buildEmailData email attrs parsed now).id
          (buildEmailData email attrs parsed now).fromText
          (buildEmailData email attrs parsed now).subject
          (categorizeEmail key prov (buildEmailData email attrs parsed now))
          (buildEmailData email attrs parsed now).date], true, none⟩ := by
  unfold processEmailMessage
  simp [hidx, hupd, hcat]

theorem processEmailMessage_webhook_indep
    (idx : EmailData → Except String Unit)
    (upd : String → String → Except String Unit)
    (key : Option String) (prov : EmailData → Except String String)
    (su1 su2 : Option String) (st1 st2 : EmailData → Except String Nat)
    (wu : Option String) (wt : EmailData → Except String Nat)
    (email : String) (attrs : Attrs) (parseResult : Except String ParsedMail)
    (now : Int) (i : String) (b : Bool) :
    Effect.webhookTrigger i b ∈
      (processEmailMessage idx upd key prov su1 st1 wu wt email attrs
        parseResult now).effects ↔
    Effect.webhookTrigger i b ∈
      (processEmailMessage idx upd key prov su2 st2 wu wt email attrs
        parseResult now).effects := by
  cases parseResult with
  | error e => simp [processEmailMessage]
  | ok parsed =>
    cases hidx : idx (buildEmailData email attrs parsed now) with
    | error e1 => simp [processEmailMessage, hidx]
    | ok u =>
      cases u
      cases hupd : upd (buildEmailData email attrs parsed now).id
          (categorizeEmail key prov (buildEmailData email attrs parsed now)) with
      | error e2 => simp [processEmailMessage, hidx, hupd]
      | ok u2 =>
        cases u2
        by_cases hcat : categorizeEmail key prov
            (buildEmailData email attrs parsed now) = "Interested"
        · rw [processEmailMessage_interested_eq idx upd key prov su1 st1 wu wt
              email attrs parsed now hidx hupd hcat,
            processEmailMessage_interested_eq idx upd key prov su2 st2 wu wt
              email attrs parsed now hidx hupd hcat]
          simp
        · rw [processEmailMessage_not_interested_eq idx upd key prov su1 st1 wu wt
              email attrs parsed now hidx hupd hcat,
            processEmailMessage_not_interested_eq idx upd key prov su2 st2 wu wt
              email attrs parsed now hidx hupd hcat]

theorem processEmailMessage_slack_indep
    (idx : EmailData → Except String Unit)
    (upd : String → String → Except String Unit)
    (key : Option String) (prov : EmailData → Except String String)
    (su : Option String) (st : EmailData → Except String Nat)
    (wu1 wu2 : Option String) (wt1 wt2 : EmailData → Except String Nat)
    (email : String) (attrs : Attrs) (parseResult : Except String ParsedMail)
    (now : Int) (i : String) (b : Bool) :
    Effect.slackNotify i b ∈
      (processEmailMessage idx upd key prov su st wu1 wt1 email attrs
        parseResult now).effects ↔
    Effect.slackNotify i b ∈
      (processEmailMessage idx upd key prov su st wu2 wt2 email attrs
        parseResult now).effects := by
  cases parseResult with
  | error e => simp [processEmailMessage]
  | ok parsed =>
    cases hidx : idx (buildEmailData email attrs parsed now) with
    | error e1 => simp [processEmailMessage, hidx]
    | ok u =>
      cases u
      cases hupd : upd (buildEmailData email attrs parsed now).id
          (categorizeEmail key prov (buildEmailData email attrs parsed now)) with
      | error e2 => simp [processEmailMessage, hidx, hupd]
      | ok u2 =>
        cases u2
        by_cases hcat : categorizeEmail key prov
            (buildEmailData email attrs parsed now) = "Interested"
        · rw [processEmailMessage_interested_eq idx upd key prov su st wu1 wt1
              email attrs parsed now hidx hupd hcat,
            processEmailMessage_interested_eq idx upd key prov su st wu2 wt2
              email attrs parsed now hidx hupd hcat]
          simp
        · rw [processEmailMessage_not_interested_eq idx upd key prov su st wu1 wt1
              email attrs parsed now hidx hupd hcat,
            processEmailMessage_not_interested_eq idx upd key prov su st wu2 wt2
              email attrs parsed now hidx hupd hcat]

/-! ### Claim theorems: the per-message pipeline -/

/-- Claim C3 (confirmed): message processing lets no error escape and
always calls the completion callback; on the parse of an unparseable
payload (the parser resolves with no fields extracted) it builds the
Message with empty textual fields and issues the store call for it,
rather than failing or skipping; and a fetch batch is processed
element-wise — each message's result depends only on that message — so
one bad message never stalls its siblings. -/
theorem processEmailMessage_lossy_degrade
    (idx : EmailData → Except String Unit)
    (upd : String → String → Except String Unit)
    (key : Option String) (prov : EmailData → Except String String)
    (su : Option String) (st : EmailData → Except String Nat)
    (wu : Option String) (wt : EmailData → Except String Nat)
    (email : String) (now : Int) :
    (∀ (attrs : Attrs) (parseResult : Except String ParsedMail),
      (processEmailMessage idx upd key prov su st wu wt email attrs
          parseResult now).uncaught = none ∧
      (processEmailMessage idx upd key prov su st wu wt email attrs
          parseResult now).callbackCalled = true) ∧
    (∀ attrs : Attrs,
      Effect.indexEmail (buildEmailData email attrs ParsedMail.empty now) ∈
        (processEmailMessage idx upd key prov su st wu wt email attrs
          (Except.ok ParsedMail.empty) now).effects ∧
      (buildEmailData email attrs ParsedMail.empty now).fromText = "" ∧
      (buildEmailData email attrs ParsedMail.empty now).toText = "" ∧
      (buildEmailData email attrs ParsedMail.empty now).subject = "" ∧
      (buildEmailData email attrs ParsedMail.empty now).text = "" ∧
      (buildEmailData email attrs ParsedMail.empty now).html = "") ∧
    (∀ (msgs : List (Attrs × Except String ParsedMail)) (i : Nat)
        (m : Attrs × Except String ParsedMail), msgs[i]? = some m →
      (processFetchedMessages idx upd key prov su st wu wt email msgs now)[i]? =
        some (processEmailMessage idx upd key prov su st wu wt email
          m.1 m.2 now)) := by
  refine ⟨?_, ?_, ?_⟩
  · intro attrs parseResult
    exact processEmailMessage_total idx upd key prov su st wu wt email attrs
      parseResult now
  · intro attrs
    exact ⟨processEmailMessage_index_called idx upd key prov su st wu wt email
      attrs ParsedMail.empty now, rfl, rfl, rfl, rfl, rfl⟩
  · intro msgs i m hm
    simp [processFetchedMessages, hm]

/-- Witness for `processEmailMessage_lossy_degrade`: a one-element batch
holding an unparseable payload is processed element-wise. -/
theorem processEmailMessage_lossy_degrade_witness :
    (processFetchedMessages storeOk updateOk none providerDown none
        transportDown none transportDown "a@x.com"
        [(sampleAttrs, Except.ok ParsedMail.empty)] 0)[0]? =
      some (processEmailMessage storeOk updateOk none providerDown none
        transportDown none transportDown "a@x.com" sampleAttrs
        (Except.ok ParsedMail.empty) 0) :=
  (processEmailMessage_lossy_degrade storeOk updateOk none providerDown none
      transportDown none transportDown "a@x.com" 0).2.2
    [(sampleAttrs, Except.ok ParsedMail.empty)] 0
    (sampleAttrs, Except.ok ParsedMail.empty) rfl

/-- Claim C4 (confirmed): for a message whose store calls succeed, if the
computed category is `Interested` both the chat sink and the webhook
sink are invoked; for any other category neither sink is invoked; and in
both cases the lightweight event (id, sender, subject, category, date)
is published to the `email-updates` topic. -/
theorem processEmailMessage_fanout
    (idx : EmailData → Except String Unit)
    (upd : String → String → Except String Unit)
    (key : Option String) (prov : EmailData → Except String String)
    (su : Option String) (st : EmailData → Except String Nat)
    (wu : Option String) (wt : EmailData → Except String Nat)
    (email : String) (attrs : Attrs) (parsed : ParsedMail) (now : Int)
    (hidx : idx (buildEmailData email attrs parsed now) = Except.ok ())
    (hupd : upd (buildEmailData email attrs parsed now).id
        (categorizeEmail key prov (buildEmailData email attrs parsed now))
      = Except.ok ()) :
    Effect.emitNewEmail liveUpdateTopic
        (buildEmailData email attrs parsed now).id
        (buildEmailData email attrs parsed now).fromText
        (buildEmailData email attrs parsed now).subject
        (categorizeEmail key prov (buildEmailData email attrs parsed now))
        (buildEmailData email attrs parsed now).date ∈
      (processEmailMessage idx upd key prov su st wu wt email attrs
        (Except.ok parsed) now).effects ∧
    (categorizeEmail key prov (buildEmailData email attrs parsed now)
        = "Interested" →
      (∃ b, Effect.slackNotify (buildEmailData email attrs parsed now).id b ∈
        (processEmailMessage idx upd key prov su st wu wt email attrs
          (Except.ok parsed) now).effects) ∧
      (∃ b, Effect.webhookTrigger (buildEmailData email attrs parsed now).id b ∈
        (processEmailMessage idx upd key prov su st wu wt email attrs
          (Except.ok parsed) now).effects)) ∧
    (categorizeEmail key prov (buildEmailData email attrs parsed now)
        ≠ "Interested" →
      (∀ (i : String) (b : Bool), Effect.slackNotify i b ∉
        (processEmailMessage idx upd key prov su st wu wt email attrs
          (Except.ok parsed) now).effects) ∧
      (∀ (i : String) (b : Bool), Effect.webhookTrigger i b ∉
        (processEmailMessage idx upd key prov su st wu wt email attrs
          (Except.ok parsed) now).effects)) := by
  by_cases hcat : categorizeEmail key prov
      (buildEmailData email attrs parsed now) = "Interested"
  · rw [processEmailMessage_interested_eq idx upd key prov su st wu wt
      email attrs parsed now hidx hupd hcat]
    refine ⟨by simp, fun _ =>
      ⟨⟨exceptBool (sendNotification su
          (st (buildEmailData email attrs parsed now))), by simp⟩,
        ⟨exceptBool (triggerWebhook wu
          (wt (buildEmailData email attrs parsed now))), by simp⟩⟩,
      fun hne => absurd hcat hne⟩
  · rw [processEmailMessage_not_interested_eq idx upd key prov su st wu wt
      email attrs parsed now hidx hupd hcat]
    exact ⟨by simp, fun heq => absurd heq hcat, fun _ => ⟨by simp, by simp⟩⟩

/-- Witness for `processEmailMessage_fanout`: with succeeding store
calls and no classifier credential, the sample message is processed and
the live-update event is published. -/
theorem processEmailMessage_fanout_witness :
    Effect.emitNewEmail liveUpdateTopic
        (buildEmailData "a@x.com" sampleAttrs ParsedMail.empty 0).id
        (buildEmailData "a@x.com" sampleAttrs ParsedMail.empty 0).fromText
        (buildEmailData "a@x.com" sampleAttrs ParsedMail.empty 0).subject
        (categorizeEmail none providerDown
          (buildEmailData "a@x.com" sampleAttrs ParsedMail.empty 0))
        (buildEmailData "a@x.com" sampleAttrs ParsedMail.empty 0).date ∈
      (processEmailMessage storeOk updateOk none providerDown none
        transportDown none transportDown "a@x.com" sampleAttrs
        (Except.ok ParsedMail.empty) 0).effects :=
  (processEmailMessage_fanout storeOk updateOk none providerDown none
    transportDown none transportDown "a@x.com" sampleAttrs ParsedMail.empty 0
    rfl rfl).1

/-- Claim C5 (confirmed): each sink call resolves to a boolean and never
rejects to its caller — for every configuration, including a missing
one, and every transport outcome, including rejection; and within the
pipeline the two sinks fail independently: varying the chat sink's
configuration and transport leaves the webhook call (presence and
boolean result) unchanged, and varying the webhook sink's leaves the
chat call unchanged. -/
theorem sinks_boolean_and_independent :
    (∀ (u : Option String) (t : Except String Nat),
      ∃ b, sendNotification u t = Except.ok b) ∧
    (∀ (u : Option String) (t : Except String Nat),
      ∃ b, triggerWebhook u t = Except.ok b) ∧
    (∀ (idx : EmailData → Except String Unit)
        (upd : String → String → Except String Unit)
        (key : Option String) (prov : EmailData → Except String String)
        (su1 su2 : Option String) (st1 st2 : EmailData → Except String Nat)
        (wu : Option String) (wt : EmailData → Except String Nat)
        (email : String) (attrs : Attrs)
        (parseResult : Except String ParsedMail) (now : Int)
        (i : String) (b : Bool),
      Effect.webhookTrigger i b ∈
        (processEmailMessage idx upd key prov su1 st1 wu wt email attrs
          parseResult now).effects ↔
      Effect.webhookTrigger i b ∈
        (processEmailMessage idx upd key prov su2 st2 wu wt email attrs
          parseResult now).effects) ∧
    (∀ (idx : EmailData → Except String Unit)
        (upd : String → String → Except String Unit)
        (key : Option String) (prov : EmailData → Except String String)
        (su : Option String) (st : EmailData → Except String Nat)
        (wu1 wu2 : Option String) (wt1 wt2 : EmailData → Except String Nat)
        (email : String) (attrs : Attrs)
        (parseResult : Except String ParsedMail) (now : Int)
        (i : String) (b : Bool),
      Effect.slackNotify i b ∈
        (processEmailMessage idx upd key prov su st wu1 wt1 email attrs
          parseResult now).effects ↔
      Effect.slackNotify i b ∈
        (processEmailMessage idx upd key prov su st wu2 wt2 email attrs
          parseResult now).effects) := by
  refine ⟨sendNotification_ok, triggerWebhook_ok, ?_, ?_⟩
  · intro idx upd key prov su1 su2 st1 st2 wu wt email attrs parseResult now i b
    exact processEmailMessage_webhook_indep idx upd key prov su1 su2 st1 st2
      wu wt email attrs parseResult now i b
  · intro idx upd key prov su st wu1 wu2 wt1 wt2 email attrs parseResult now i b
    exact processEmailMessage_slack_indep idx upd key prov su st wu1 wu2
      wt1 wt2 email attrs parseResult now i b

/-! ### Supervisor start (`ImapSyncService.start`) -/

/-- The per-account loop of `start()` (lines 44-49): for each
(account, password) pair in order, trim both and await
`initializeConnection`; that call's outcome — the handshake plus the
account's initial `syncEmails` backfill — is the oracle `initResult`.
Returns the accounts for which a connection was attempted and the
overall outcome; the first rejection stops the loop and propagates. -/
def startLoop (initResult : String → String → Except String Unit) :
    List (String × String) → List String × Except String Unit
  | [] => ([], Except.ok ())
  | (e, p) :: rest =>
    match initResult (jsTrim e) (jsTrim p) with
    | Except.error msg => ([jsTrim e], Except.error msg)
    | Except.ok _ =>
      let tail := startLoop initResult rest
      (jsTrim e :: tail.1, tail.2)

/-- `start()` (`imapSyncService.js` lines 28-58): the configuration
guards, then the sequential per-account loop.  `emailAccounts` and
`emailPasswords` model the comma-split environment lists; the method's
`catch` logs and rethrows, leaving the outcome unchanged. -/
def start (emailAccounts emailPasswords : List String)
    (initResult : String → String → Except String Unit) :
    List String × Except String Unit :=
  if emailAccounts.length = 0 then
    ([], Except.error "No email accounts configured")
  else if emailAccounts.length ≠ emailPasswords.length then
    ([], Except.error "Email accounts and passwords count mismatch")
  else
    startLoop initResult (emailAccounts.zip emailPasswords)

theorem startLoop_ok_iff (initResult : String → String → Except String Unit) :
    ∀ pairs : List (String × String),
      (startLoop initResult pairs).2 = Except.ok () ↔
        ∀ p ∈ pairs, initResult (jsTrim p.1) (jsTrim p.2) = Except.ok () := by
  intro pairs
  induction pairs with
  | nil => simp [startLoop]
  | cons a rest ih =>
    obtain ⟨e, p⟩ := a
    simp only [startLoop]
    cases h : initResult (jsTrim e) (jsTrim p) with
    | error msg => simp [h]
    | ok u => cases u; simp [h, ih]

/-- Claim C8 (confirmed): `start()` rejects with the configuration error
when the account list is empty, and with the mismatch error when the
account and password lists have different lengths — in both cases
before any connection is attempted (the attempted list is empty); and
`start()` resolves successfully iff the guards pass and every account's
`initializeConnection` (handshake plus initial backfill) succeeded, so
any single account's backfill failure propagates out of `start()`. -/
theorem start_spec (emailAccounts emailPasswords : List String)
    (initResult : String → String → Except String Unit) :
    (emailAccounts = [] →
      start emailAccounts emailPasswords initResult =
        ([], Except.error "No email accounts configured")) ∧
    (emailAccounts ≠ [] → emailAccounts.length ≠ emailPasswords.length →
      start emailAccounts emailPasswords initResult =
        ([], Except.error "Email accounts and passwords count mismatch")) ∧
    ((start emailAccounts emailPasswords initResult).2 = Except.ok () ↔
      emailAccounts ≠ [] ∧ emailAccounts.length = emailPasswords.length ∧
      ∀ p ∈ emailAccounts.zip emailPasswords,
        initResult (jsTrim p.1) (jsTrim p.2) = Except.ok ()) := by
  refine ⟨?_, ?_, ?_⟩
  · intro h; simp [start, h]
  · intro h1 h2
    rw [start, if_neg (by simpa [List.length_eq_zero] using h1), if_pos h2]
  · by_cases h0 : emailAccounts.length = 0
    · have : emailAccounts = [] := List.length_eq_zero.mp h0
      simp [start, h0, this]
    · by_cases hm : emailAccounts.length = emailPasswords.length
      · rw [start, if_neg h0, if_neg (by simp [hm])]
        rw [startLoop_ok_iff initResult (emailAccounts.zip emailPasswords)]
        have hne : emailAccounts ≠ [] := by
          intro h; exact h0 (by simp [h])
        simp [hne, hm]
      · rw [start, if_neg h0, if_pos hm]
        simp [hm]

/-- Witness for `start_spec`: an empty account list is the fatal
configuration error, with no connection attempted. -/
theorem start_spec_witness :
    start [] ["pw"] (fun _ _ => Except.ok ()) =
      ([], Except.error "No email accounts configured") :=
  (start_spec [] ["pw"] (fun _ _ => Except.ok ())).1 rfl

/-! ### stop() and post-stop ticks -/

/-- The manager-facing runtime state of the sync service: the keys of
`this.connections`, the `isRunning` flag, and the accounts whose session
close has been acknowledged (their transport `end` event handled). -/
structure SyncServiceState where
  connections : List String
  isRunning : Bool
  closeAcked : List String
  deriving Repr, DecidableEq

/-- `stop()` (`imapSyncService.js` lines 273-288): set `isRunning`
false, call `connection.end()` on every connection — which only
initiates the close; the acknowledging `end` event is delivered later
and handled by `handleEndEvent` — then clear the map and return.  The
second component is the accounts to which `end()` was issued, in order;
the body contains no wait on the `end` events, so `closeAcked` is
unchanged when `stop` returns. -/
def stop (st : SyncServiceState) : SyncServiceState × List String :=
  ({ connections := [], isRunning := false, closeAcked := st.closeAcked },
    st.connections)

/-- The `imap.once('end', ...)` handler (lines 94-97): the transport
acknowledges the session close; the manager drops the account from the
connection map. -/
def handleEndEvent (st : SyncServiceState) (email : String) : SyncServiceState :=
  { connections := st.connections.erase email, isRunning := st.isRunning,
    closeAcked := email :: st.closeAcked }

/-- One 60-second `checkForNewEmails` tick for `email` (lines 229-265):
when the guard `this.connections.has(email)` fails the tick returns
immediately with no folder open, no search and no message processing;
otherwise it issues the short-window search (whose matches then flow
through `processEmailMessage`). -/
def checkForNewEmails (st : SyncServiceState) (email : String) (now : Nat) :
    Option SearchCriteria :=
  if st.connections.contains email then
    some (checkForNewEmailsSearchCriteria now)
  else
    none

/-- Claim C9 counterexample: `stop()` does not wait for the sessions'
close acknowledgments before returning.  With one live connection and no
acknowledgment yet received, `stop` has returned (having issued `end()`
to `a@x.com`) while `a@x.com`'s session close is still unacknowledged —
refuting "returns only after every manager has acknowledged its session
close". -/
theorem stop_no_ack_counterexample :
    "a@x.com" ∈ (SyncServiceState.mk ["a@x.com"] true []).connections ∧
    (stop (SyncServiceState.mk ["a@x.com"] true [])).2 = ["a@x.com"] ∧
    "a@x.com" ∉ ((stop (SyncServiceState.mk ["a@x.com"] true [])).1).closeAcked := by
  refine ⟨by simp, rfl, by simp [stop]⟩

/-- Claim C9 (amended): `stop()` issues a transport `end()` to every
account's connection, switches `isRunning` off and clears the registry
before returning — but without waiting for the close acknowledgments
(`end` events), which are handled separately by `handleEndEvent`; and
after `stop` returns, every subsequent sync tick for every account fails
the connection-registry guard and performs no search and no message
processing. -/
theorem stop_spec (st : SyncServiceState) :
    (stop st).2 = st.connections ∧
    ((stop st).1).connections = [] ∧
    ((stop st).1).isRunning = false ∧
    ((stop st).1).closeAcked = st.closeAcked ∧
    (∀ (email : String) (now : Nat),
      checkForNewEmails (stop st).1 email now = none) := by
  refine ⟨rfl, rfl, rfl, rfl, ?_⟩
  intro email now
  simp [checkForNewEmails, stop]

end Reachinbox
